import Mathlib

/-!
Shallow embedding of the salary-balance ledger and approval engine of the
Salary-system repository (src/main.py, src/app/services/*.py,
src/app/models/schema.py), together with theorems settling the frozen
claims about it.

Conventions of the embedding:
- Python `float` money amounts are modelled as `ℚ`.
- Calendar dates (`datetime.date`) are modelled as `ℤ` day numbers
  (days since 1970-01-01); `date + timedelta(days = k)` is `d + k`, and
  the civil components `year`/`month`/`dayOfMonth` are recovered with the
  standard proleptic-Gregorian conversion.  `datetime` values are only
  ever inspected through `.date()` in the code under study, so they are
  modelled at date granularity; `datetime.now()` becomes an explicit
  `now : ℤ` parameter of the operations that call it.
- Nullable columns (`used_salary`, `updated_at`, `days_worked_this_month`,
  `total_days_worked`, `approved_at`, `approval_notes`, `notes`) are
  `Option` fields; non-nullable columns are plain fields.
- The SQLAlchemy session is modelled as an explicit `DB` value; a
  mutating operation returns the new `DB`.  An operation that raises
  before any mutation is modelled with `Except`: an `error` result means
  the database is unchanged.
-/

namespace SalarySystem

/-! ## Calendar arithmetic

Proleptic-Gregorian conversion between a day number (days since
1970-01-01) and the civil triple (year, month, day).  This models the
behaviour of Python `datetime.date`: ordering of dates is ordering of day
numbers, `timedelta(days = k)` is `+ k`, and `.year`/`.month`/`.day` are
the civil components. -/

/-- Civil (year, month, day) of a day number (days since 1970-01-01). -/
def civilOfDays (z : ℤ) : ℤ × ℤ × ℤ :=
  let z' := z + 719468
  let era : ℤ := z'.fdiv 146097
  let doe : ℤ := z' - era * 146097
  let yoe : ℤ := (doe - doe.fdiv 1460 + doe.fdiv 36524 - doe.fdiv 146096).fdiv 365
  let y : ℤ := yoe + era * 400
  let doy : ℤ := doe - (365 * yoe + yoe.fdiv 4 - yoe.fdiv 100)
  let mp : ℤ := (5 * doy + 2).fdiv 153
  let d : ℤ := doy - (153 * mp + 2).fdiv 5 + 1
  let m : ℤ := mp + (if mp < 10 then 3 else -9)
  (y + (if m ≤ 2 then 1 else 0), m, d)

/-- The `.year` component of a day number. -/
def yearOf (z : ℤ) : ℤ := (civilOfDays z).1

/-- The `.month` component of a day number. -/
def monthOf (z : ℤ) : ℤ := (civilOfDays z).2.1

/-- The `.day` (day-of-month) component of a day number. -/
def dayOfMonth (z : ℤ) : ℤ := (civilOfDays z).2.2

/-- Day number (days since 1970-01-01) of a civil (year, month, day);
used to write concrete dates in witnesses readably. -/
def daysOfCivil (y m d : ℤ) : ℤ :=
  let y' := y - (if m ≤ 2 then 1 else 0)
  let era := y'.fdiv 400
  let yoe := y' - era * 400
  let doy := (153 * (m + (if m > 2 then -3 else 9)) + 2).fdiv 5 + d - 1
  let doe := yoe * 365 + yoe.fdiv 4 - yoe.fdiv 100 + doy
  era * 146097 + doe - 719468

/-! ## Data model (src/app/models/schema.py) -/

/-- The `Role` enum of `schema.py`. -/
inductive Role
  | staff
  | manager
  | admin
deriving DecidableEq, Repr

/-- The `AdvanceStatus` enum of `schema.py`. -/
inductive AdvanceStatus
  | pending
  | approved
  | denied
deriving DecidableEq, Repr

/-- The `OffDayStatus` enum of `schema.py`. -/
inductive OffDayStatus
  | pending
  | approved
  | denied
deriving DecidableEq, Repr

/-- The `.value` string of an `AdvanceStatus`, as interpolated into
error and note messages. -/
def AdvanceStatus.value : AdvanceStatus → String
  | .pending => "pending"
  | .approved => "approved"
  | .denied => "denied"

/-- An `employee` table row (the columns the core logic reads or writes).
`days_worked_this_month`, `total_days_worked`, `used_salary` and
`updated_at` are nullable in the schema, hence `Option`; `updated_at` is
kept at date granularity because the code only inspects
`updated_at.date()`. -/
structure Employee where
  id : ℤ
  role : Role
  salary : ℚ
  employment_start_date : ℤ
  days_worked_this_month : Option ℤ
  total_days_worked : Option ℤ
  used_salary : Option ℚ
  updated_at : Option ℤ
deriving DecidableEq, Repr

/-- A `bill` table row (the columns the ledger reads). -/
structure Bill where
  id : ℤ
  billed_employee_id : ℤ
  amount_billed : ℚ
deriving DecidableEq, Repr

/-- An `advance` table row. -/
structure Advance where
  id : ℤ
  employee_id : ℤ
  amount_for_advance : ℚ
  status : AdvanceStatus
  approved_at : Option ℤ
  approval_notes : Option String
deriving DecidableEq, Repr

/-- An `off_days` table row (the columns the attendance tracker reads). -/
structure OffDay where
  id : ℤ
  employee_id : ℤ
  date : ℤ
  day_count : ℤ
  status : OffDayStatus
deriving DecidableEq, Repr

/-- A `salary_payment` table row. -/
structure SalaryPayment where
  employee_id : ℤ
  paid_by_id : ℤ
  amount_paid : ℚ
  payment_date : ℤ
  notes : Option String
deriving DecidableEq, Repr

/-- The persisted state: the five tables of the schema. -/
structure DB where
  employees : List Employee
  bills : List Bill
  advances : List Advance
  off_days : List OffDay
  salary_payments : List SalaryPayment
deriving DecidableEq, Repr

/-! ## Query helpers (SQLAlchemy queries used by the services) -/

/-- Model of `db.query(Employee).filter(Employee.id == eid).first()` /
`db.query(Employee).get(eid)`. -/
def findEmployee (db : DB) (eid : ℤ) : Option Employee :=
  db.employees.find? (fun e => decide (e.id = eid))

/-- Model of `db.query(Advance).filter(Advance.id == aid).first()` /
`db.query(Advance).get(aid)`. -/
def findAdvance (db : DB) (aid : ℤ) : Option Advance :=
  db.advances.find? (fun a => decide (a.id = aid))

/-- Model of `func.coalesce(func.sum(Bill.amount_billed), 0.0)` filtered on
`Bill.billed_employee_id == eid`. -/
def billsSum (db : DB) (eid : ℤ) : ℚ :=
  ((db.bills.filter (fun b => decide (b.billed_employee_id = eid))).map
    Bill.amount_billed).sum

/-- Model of `func.coalesce(func.sum(Advance.amount_for_advance), 0.0)` filtered on
`Advance.employee_id == eid` and `Advance.status == AdvanceStatus.APPROVED`. -/
def approvedAdvancesSum (db : DB) (eid : ℤ) : ℚ :=
  ((db.advances.filter (fun a =>
      decide (a.employee_id = eid ∧ a.status = AdvanceStatus.approved))).map
    Advance.amount_for_advance).sum

/-! ## Ledger Calculator -/

/-- Model of `calculate_remaining_salary` of `src/main.py` (lines 81-112): returns
`0.0` when the employee is missing, otherwise
`salary - (Σ bills + Σ approved advances)`, with no clamping.
(The source's `float(... or 0)` coercions are identity on the non-null
numeric values modelled here.) -/
def calculate_remaining_salary (db : DB) (employee_id : ℤ) : ℚ :=
  match findEmployee db employee_id with
  | none => 0
  | some employee =>
    let bills_sum := billsSum db employee_id
    let advances_sum := approvedAdvancesSum db employee_id
    let used := bills_sum + advances_sum
    let salary := employee.salary
    salary - used

/-- Model of `calculate_used_salary_from_transactions` of
`src/app/services/salary_service.py` (lines 11-40). -/
def calculate_used_salary_from_transactions (db : DB) (employee_id : ℤ) : ℚ :=
  let bills_sum := billsSum db employee_id
  let advances_sum := approvedAdvancesSum db employee_id
  bills_sum + advances_sum

/-! ## Monthly Rollover Engine
(`reset_monthly_salary_for_new_month` of `src/app/services/salary_service.py`,
lines 67-130) -/

/-- The statistics dictionary returned by the rollover. -/
structure ResetStats where
  reset_count : ℕ
  carried_forward : ℕ
  reset_to_zero : ℕ
deriving DecidableEq, Repr

/-- One iteration of the rollover loop body: the possible
`employee.used_salary = 0.0` normalization of a NULL value, then the
carry-forward / reset-to-zero / untouched branch, appending the updated
employee and bumping the counters exactly as the Python loop does. -/
def resetStep (acc : List Employee × ResetStats) (e : Employee) :
    List Employee × ResetStats :=
  let e1 : Employee := { e with used_salary := some (e.used_salary.getD 0) }
  let base_salary : ℚ := e1.salary
  let current_used_salary : ℚ := e1.used_salary.getD 0
  let remaining_salary : ℚ := base_salary - current_used_salary
  if remaining_salary < 0 then
    let excess := current_used_salary - base_salary
    (acc.1 ++ [{ e1 with used_salary := some excess }],
     { acc.2 with
        carried_forward := acc.2.carried_forward + 1
        reset_count := acc.2.reset_count + 1 })
  else if current_used_salary > 0 then
    (acc.1 ++ [{ e1 with used_salary := some 0 }],
     { acc.2 with
        reset_to_zero := acc.2.reset_to_zero + 1
        reset_count := acc.2.reset_count + 1 })
  else
    (acc.1 ++ [e1], acc.2)

/-- Model of `reset_monthly_salary_for_new_month` (salary_service.py lines 67-130):
no-op with zero counts unless `target_date` is the 1st of a month,
otherwise the loop over all employees. -/
def reset_monthly_salary_for_new_month (db : DB) (target_date : ℤ) :
    DB × ResetStats :=
  if dayOfMonth target_date ≠ 1 then
    (db, ⟨0, 0, 0⟩)
  else
    let r := db.employees.foldl resetStep ([], ⟨0, 0, 0⟩)
    ({ db with employees := r.1 }, r.2)

/-! ## Advance Approval State Machine -/

/-- Errors raised by the service layer (`ValueError` / `PermissionError`). -/
inductive SvcError
  | valueError (msg : String)
  | permissionError (msg : String)
deriving DecidableEq, Repr

/-- HTTP errors raised by the `main.py` endpoints (`HTTPException`);
`internal` models an unhandled exception (500). -/
inductive ApiError
  | notFound (msg : String)
  | badRequest (msg : String)
  | internal (msg : String)
deriving DecidableEq, Repr

/-- The `AdvanceApprovalRequest` payload of the approve endpoint. -/
structure AdvanceApprovalRequest where
  approved : Bool
  notes : Option String
deriving DecidableEq, Repr

/-- Replace the advance with id `a.id` in the session by `a`
(the effect of mutating the fetched ORM object and committing). -/
def setAdvance (db : DB) (a : Advance) : DB :=
  { db with advances := db.advances.map (fun x => if decide (x.id = a.id) then a else x) }

/-- Python's
`(payload.notes + auto_reject_msg) if payload.notes else auto_reject_msg.strip()`:
a `None` or empty notes string is falsy, so the message is stripped and
stored alone; otherwise the message is appended to the admin's notes.
(`String.trim` matches `str.strip`: both drop surrounding whitespace.) -/
def appendAutoRejectNote (notes : Option String) (msg : String) : String :=
  match notes with
  | some s => if s ≠ "" then s ++ msg else msg.trim
  | none => msg.trim

/-- Stand-in for Python's `f"{x:,.2f}"` float rendering of an amount. -/
def fmtKsh (x : ℚ) : String := toString x

/-- The check-1 auto-reject message of `main.py` line 734. -/
def autoRejectMsgExceedsBase (new_used base_salary new_remaining : ℚ) : String :=
  " [AUTO-REJECTED: Would make total used salary KSH " ++ fmtKsh new_used ++
  ", exceeding base salary KSH " ++ fmtKsh base_salary ++
  ". Remaining would be negative: KSH " ++ fmtKsh new_remaining ++ "]"

/-- The check-2 auto-reject message of `main.py` line 742. -/
def autoRejectMsgNegativeRemaining (new_remaining remaining_salary : ℚ) : String :=
  " [AUTO-REJECTED: No remaining salary. Would become negative: KSH " ++
  fmtKsh new_remaining ++ ". Current remaining: KSH " ++ fmtKsh remaining_salary ++ "]"

/-- The check-3 auto-reject message of `main.py` line 750. -/
def autoRejectMsgNoRemaining (remaining_salary : ℚ) : String :=
  " [AUTO-REJECTED: No remaining salary available. Current remaining: KSH " ++
  fmtKsh remaining_salary ++ "]"

/-- The check-4 auto-reject message of `main.py` line 758. -/
def autoRejectMsgExceedsRemaining (amount remaining_salary : ℚ) : String :=
  " [AUTO-REJECTED: Amount KSH " ++ fmtKsh amount ++
  " exceeds remaining salary KSH " ++ fmtKsh remaining_salary ++ "]"

/-- The `PUT /api/advances/{advance_id}/approve` endpoint
(`approve_advance` of `src/main.py`, lines 691-788).  `now` is the date
of `datetime.utcnow()`.  The employee row is fetched right after the
pending check; the source keeps the `None` result and would only crash
on dereference later, but the schema's foreign key makes a pending
advance without an employee row unreachable, so that corner is modelled
as an internal error. -/
def approve_advance_endpoint (db : DB) (advance_id : ℤ)
    (payload : AdvanceApprovalRequest) (now : ℤ) :
    Except ApiError (DB × Advance) :=
  match findAdvance db advance_id with
  | none => .error (.notFound "Advance not found.")
  | some advance =>
    if advance.status ≠ AdvanceStatus.pending then
      .error (.badRequest ("Advance is already " ++ advance.status.value ++
        ". Cannot change status."))
    else
      match findEmployee db advance.employee_id with
      | none => .error (.internal "employee row missing for advance")
      | some employee =>
        if payload.approved then
          let remaining_salary := calculate_remaining_salary db advance.employee_id
          let base_salary := employee.salary
          let bills_sum := billsSum db advance.employee_id
          let approved_advances_sum := approvedAdvancesSum db advance.employee_id
          let current_used := bills_sum + approved_advances_sum
          let new_used := current_used + advance.amount_for_advance
          let new_remaining := base_salary - new_used
          if new_used > base_salary then
            let advance' := { advance with
              status := AdvanceStatus.denied
              approved_at := some now
              approval_notes := some (appendAutoRejectNote payload.notes
                (autoRejectMsgExceedsBase new_used base_salary new_remaining)) }
            .ok (setAdvance db advance', advance')
          else if new_remaining < 0 then
            let advance' := { advance with
              status := AdvanceStatus.denied
              approved_at := some now
              approval_notes := some (appendAutoRejectNote payload.notes
                (autoRejectMsgNegativeRemaining new_remaining remaining_salary)) }
            .ok (setAdvance db advance', advance')
          else if remaining_salary ≤ 0 then
            let advance' := { advance with
              status := AdvanceStatus.denied
              approved_at := some now
              approval_notes := some (appendAutoRejectNote payload.notes
                (autoRejectMsgNoRemaining remaining_salary)) }
            .ok (setAdvance db advance', advance')
          else if advance.amount_for_advance > remaining_salary then
            let advance' := { advance with
              status := AdvanceStatus.denied
              approved_at := some now
              approval_notes := some (appendAutoRejectNote payload.notes
                (autoRejectMsgExceedsRemaining advance.amount_for_advance remaining_salary)) }
            .ok (setAdvance db advance', advance')
          else
            let advance' := { advance with
              status := AdvanceStatus.approved
              approved_at := some now
              approval_notes := payload.notes }
            .ok (setAdvance db advance', advance')
        else
          let advance' := { advance with
            status := AdvanceStatus.denied
            approved_at := some now
            approval_notes := payload.notes }
          .ok (setAdvance db advance', advance')

/-- Model of `approve_advance` of `src/app/services/advance_service.py`
(lines 54-99): admin lookup and role check, then the status transition
with the notes stored verbatim.  A raised error means the session was
never mutated. -/
def approve_advance_service (db : DB) (advance_id admin_id : ℤ)
    (approved : Bool) (notes : Option String) (now : ℤ) :
    Except SvcError (DB × Advance) :=
  match findEmployee db admin_id with
  | none => .error (.valueError "Admin not found")
  | some admin =>
    if admin.role ≠ Role.admin then
      .error (.permissionError "Only admins can approve advances")
    else
      match findAdvance db advance_id with
      | none => .error (.valueError "Advance request not found")
      | some advance =>
        if advance.status ≠ AdvanceStatus.pending then
          .error (.valueError ("Advance is already " ++ advance.status.value))
        else
          let advance' := { advance with
            status := if approved then AdvanceStatus.approved else AdvanceStatus.denied
            approved_at := some now
            approval_notes := notes }
          .ok (setAdvance db advance', advance')

/-! ## Salary Payment Recorder
(`record_salary_payment` of `src/app/services/salary_payment_service.py`,
lines 11-96) -/

/-- Model of `record_salary_payment`: validates the employee and the admin,
defaults the amount to `max(0, remaining)` computed from the
transactions, inserts the payment row, and resets the employee's stored
`used_salary` to 0 (stamping `updated_at` with the current date `now`,
which also serves as the `date.today()` default for `payment_date`). -/
def record_salary_payment (db : DB) (employee_id admin_id : ℤ)
    (amount_paid : Option ℚ) (payment_date : Option ℤ) (notes : Option String)
    (now : ℤ) : Except SvcError (DB × SalaryPayment) :=
  match findEmployee db employee_id with
  | none => .error (.valueError "Employee not found")
  | some employee =>
    match findEmployee db admin_id with
    | none => .error (.valueError "Admin not found")
    | some admin =>
      if admin.role ≠ Role.admin then
        .error (.permissionError "Only admins can record salary payments")
      else
        let payment_date := payment_date.getD now
        let current_used_salary := calculate_used_salary_from_transactions db employee_id
        let base_salary := employee.salary
        let remaining_salary := base_salary - current_used_salary
        let amount := amount_paid.getD (max 0 remaining_salary)
        let salary_payment : SalaryPayment :=
          { employee_id := employee_id
            paid_by_id := admin_id
            amount_paid := amount
            payment_date := payment_date
            notes := notes }
        let db' : DB := { db with
          salary_payments := db.salary_payments ++ [salary_payment]
          employees := db.employees.map (fun e =>
            if decide (e.id = employee_id) then
              { e with used_salary := some 0, updated_at := some now }
            else e) }
        .ok (db', salary_payment)

/-! ## Attendance Tracker
(`src/app/services/attendance_service.py`) -/

/-- Model of `is_today_off_day` (attendance_service.py lines 10-40): true iff some
approved off-day of the employee has
`off_day_start ≤ check_date ≤ off_day_start + (day_count - 1)`. -/
def is_today_off_day (db : DB) (employee_id : ℤ) (check_date : ℤ) : Bool :=
  (db.off_days.filter (fun o =>
      decide (o.employee_id = employee_id ∧ o.status = OffDayStatus.approved))).any
    (fun o => decide (o.date ≤ check_date ∧ check_date ≤ o.date + (o.day_count - 1)))

/-- Model of `update_employee_attendance_for_date` (attendance_service.py lines
43-111).  `now` is the date of `datetime.now()`, which the source stamps
into `updated_at` on the incrementing path.  The returned employee is
the in-memory ORM object after the call, including the `None → 0`
counter initialization and the new-month reset that the source performs
before the same-day idempotency check. -/
def update_employee_attendance_for_date (db : DB) (employee : Employee)
    (update_date now : ℤ) : Employee × Bool :=
  if update_date < employee.employment_start_date then
    (employee, false)
  else if is_today_off_day db employee.id update_date then
    (employee, false)
  else
    let dm0 : ℤ := employee.days_worked_this_month.getD 0
    let tot0 : ℤ := employee.total_days_worked.getD 0
    let last_update_date : Option ℤ := employee.updated_at
    let dm1 : ℤ :=
      match last_update_date with
      | some lu =>
        if monthOf lu ≠ monthOf update_date ∨ yearOf lu ≠ yearOf update_date then 0
        else dm0
      | none => if dayOfMonth update_date = 1 then 0 else dm0
    if last_update_date = some update_date then
      ({ employee with
          days_worked_this_month := some dm1
          total_days_worked := some tot0 }, false)
    else
      ({ employee with
          days_worked_this_month := some (dm1 + 1)
          total_days_worked := some (tot0 + 1)
          updated_at := some now }, true)

/-! ## Spec-side auxiliary definitions used to state the claims -/

/-- Overwrite the stored (denormalized) `used_salary` field of the
employee with id `eid`, leaving every transaction record alone; used to
state that the ledger recomputes from source records instead of trusting
the cached field. -/
def setEmployeeUsedSalary (db : DB) (eid : ℤ) (v : Option ℚ) : DB :=
  { db with employees := db.employees.map (fun e =>
      if decide (e.id = eid) then { e with used_salary := v } else e) }

/-- The rollover's carry-forward condition on an employee, read off the
spec: the remaining salary (with a NULL `used_salary` read as 0) is
negative. -/
def carriesForward (e : Employee) : Bool :=
  decide (e.salary - e.used_salary.getD 0 < 0)

/-- The rollover's reset-to-zero condition on an employee: remaining
salary non-negative and positive `used_salary`. -/
def resetsToZero (e : Employee) : Bool :=
  decide (¬ e.salary - e.used_salary.getD 0 < 0 ∧ e.used_salary.getD 0 > 0)

/-- The per-employee effect of the rollover loop body (used to
characterize the fold in `reset_monthly_salary_for_new_month`). -/
def rolloverEmployee (e : Employee) : Employee :=
  if e.salary - e.used_salary.getD 0 < 0 then
    { e with used_salary := some (e.used_salary.getD 0 - e.salary) }
  else if e.used_salary.getD 0 > 0 then
    { e with used_salary := some 0 }
  else
    { e with used_salary := some (e.used_salary.getD 0) }

/-! ## Claim theorems -/

/-- C10: for every employee id with no matching employee record,
`calculate_remaining_salary` returns `0.0` instead of raising a
not-found error; and there is a database with an existing employee at
the same id whose remaining salary is also exactly `0`, so the caller
cannot distinguish the two outcomes. -/
theorem claim_C10_missing_employee_returns_zero (db : DB) (eid : ℤ)
    (h : findEmployee db eid = none) :
    calculate_remaining_salary db eid = 0 ∧
    ∃ db2 e2, findEmployee db2 eid = some e2 ∧
      calculate_remaining_salary db2 eid = 0 := by
  constructor
  · unfold calculate_remaining_salary
    rw [h]
  · refine ⟨⟨[⟨eid, Role.staff, 100, 0, some 0, some 0, some 0, none⟩],
      [⟨1, eid, 100⟩], [], [], []⟩,
      ⟨eid, Role.staff, 100, 0, some 0, some 0, some 0, none⟩, ?_, ?_⟩
    · simp [findEmployee]
    · simp [calculate_remaining_salary, findEmployee, billsSum, approvedAdvancesSum]

/-- Witness for C10 at the empty database and id 7. -/
theorem claim_C10_witness :
    calculate_remaining_salary ⟨[], [], [], [], []⟩ 7 = 0 ∧
    ∃ db2 e2, findEmployee db2 7 = some e2 ∧
      calculate_remaining_salary db2 7 = 0 :=
  claim_C10_missing_employee_returns_zero ⟨[], [], [], [], []⟩ 7 rfl

/-- C8: `is_today_off_day` returns true iff some off-day record of the
employee with status approved has `d` inside its inclusive range
`[date, date + day_count - 1]`; dates outside every such range, and
ranges of pending or denied off-days, yield false. -/
theorem claim_C8_off_day_range_characterization (db : DB) (eid d : ℤ) :
    is_today_off_day db eid d = true ↔
      ∃ o ∈ db.off_days, o.employee_id = eid ∧ o.status = OffDayStatus.approved ∧
        o.date ≤ d ∧ d ≤ o.date + (o.day_count - 1) := by
  simp only [is_today_off_day, List.any_eq_true, List.mem_filter,
    decide_eq_true_eq]
  constructor
  · rintro ⟨o, ⟨hmem, hemp, hst⟩, hlo, hhi⟩
    exact ⟨o, hmem, hemp, hst, hlo, hhi⟩
  · rintro ⟨o, hmem, hemp, hst, hlo, hhi⟩
    exact ⟨o, ⟨hmem, hemp, hst⟩, hlo, hhi⟩

/-- C2: for an existing employee the ledger returns
`salary - (Σ bills + Σ approved advances)` with no clamping; the result
ignores the stored `used_salary` field (overwriting that field changes
nothing), and a non-approved (pending or denied) advance contributes
nothing. -/
theorem claim_C2_remaining_salary_formula (db : DB) (eid : ℤ) (e : Employee)
    (h : findEmployee db eid = some e) :
    calculate_remaining_salary db eid =
      e.salary -
        (((db.bills.filter (fun b => decide (b.billed_employee_id = eid))).map
            Bill.amount_billed).sum +
         ((db.advances.filter (fun a =>
             decide (a.employee_id = eid ∧ a.status = AdvanceStatus.approved))).map
            Advance.amount_for_advance).sum) ∧
    (∀ v, calculate_remaining_salary (setEmployeeUsedSalary db eid v) eid =
      calculate_remaining_salary db eid) ∧
    (∀ a : Advance, a.status ≠ AdvanceStatus.approved →
      calculate_remaining_salary { db with advances := a :: db.advances } eid =
        calculate_remaining_salary db eid) := by
  refine ⟨?_, ?_, ?_⟩
  · unfold calculate_remaining_salary
    rw [h]
    rfl
  · intro v
    have hpe : ((fun x : Employee => decide (x.id = eid)) ∘
        (fun x => if decide (x.id = eid) then { x with used_salary := v } else x)) =
        (fun x : Employee => decide (x.id = eid)) := by
      funext x
      by_cases hx : x.id = eid <;> simp [hx]
    have hid : e.id = eid := by
      have := List.find?_some h
      simpa using this
    have hf : findEmployee (setEmployeeUsedSalary db eid v) eid =
        some { e with used_salary := v } := by
      show (db.employees.map _).find? _ = _
      rw [List.find?_map, hpe]
      show (findEmployee db eid).map _ = _
      rw [h]
      simp [hid]
    unfold calculate_remaining_salary
    rw [hf, h]
    rfl
  · intro a ha
    have hadv : approvedAdvancesSum { db with advances := a :: db.advances } eid =
        approvedAdvancesSum db eid := by
      unfold approvedAdvancesSum
      simp [List.filter_cons, ha]
    unfold calculate_remaining_salary
    have hf : findEmployee { db with advances := a :: db.advances } eid =
        findEmployee db eid := rfl
    rw [hf, h]
    have hb : billsSum { db with advances := a :: db.advances } eid =
        billsSum db eid := rfl
    rw [hb, hadv]

/-- Witness for C2 at a database where the employee's ledger is in
overdraft: salary 1000, bills 400 and 800, one approved advance of 300,
one pending advance of 50; the remaining salary evaluates to -500. -/
theorem claim_C2_witness :
    calculate_remaining_salary
        ⟨[⟨1, Role.staff, 1000, 0, some 0, some 0, some 0, none⟩],
         [⟨1, 1, 400⟩, ⟨2, 1, 800⟩],
         [⟨10, 1, 300, AdvanceStatus.approved, none, none⟩,
          ⟨11, 1, 50, AdvanceStatus.pending, none, none⟩], [], []⟩ 1 = -500 := by
  have h := (claim_C2_remaining_salary_formula
      ⟨[⟨1, Role.staff, 1000, 0, some 0, some 0, some 0, none⟩],
       [⟨1, 1, 400⟩, ⟨2, 1, 800⟩],
       [⟨10, 1, 300, AdvanceStatus.approved, none, none⟩,
        ⟨11, 1, 50, AdvanceStatus.pending, none, none⟩], [], []⟩ 1
      ⟨1, Role.staff, 1000, 0, some 0, some 0, some 0, none⟩ rfl).1
  rw [h]
  simp [List.filter_cons, List.filter_nil]
  norm_num

/-- C5: a decide attempt (approve or deny) through the service layer by
an existing employee whose role is not admin fails with a
`PermissionError` before any mutation (an error result leaves the
session, and hence every advance's status, untouched). -/
theorem claim_C5_non_admin_decide_fails (db : DB) (advance_id admin_id : ℤ)
    (approved : Bool) (notes : Option String) (now : ℤ) (admin : Employee)
    (hfind : findEmployee db admin_id = some admin)
    (hrole : admin.role ≠ Role.admin) :
    approve_advance_service db advance_id admin_id approved notes now =
      .error (.permissionError "Only admins can approve advances") := by
  unfold approve_advance_service
  rw [hfind]
  simp [hrole]

/-- Witness for C5: a staff member (id 2) attempting to approve a
pending advance is rejected with a permission error. -/
theorem claim_C5_witness :
    approve_advance_service
      ⟨[⟨2, Role.staff, 100, 0, some 0, some 0, some 0, none⟩],
       [], [⟨10, 2, 50, AdvanceStatus.pending, none, none⟩], [], []⟩
      10 2 true none 0 =
      .error (.permissionError "Only admins can approve advances") :=
  claim_C5_non_admin_decide_fails _ 10 2 true none 0
    ⟨2, Role.staff, 100, 0, some 0, some 0, some 0, none⟩ rfl (by decide)

/-- C6: deciding an advance whose status is already approved or denied
fails at the endpoint with an already-decided error, whatever the
requested decision; the error result leaves the advance (status,
`approved_at`, `approval_notes`) untouched. -/
theorem claim_C6_terminal_advance_cannot_be_redecided (db : DB)
    (advance_id : ℤ) (payload : AdvanceApprovalRequest) (now : ℤ) (a : Advance)
    (hfind : findAdvance db advance_id = some a)
    (hstatus : a.status ≠ AdvanceStatus.pending) :
    approve_advance_endpoint db advance_id payload now =
      .error (.badRequest ("Advance is already " ++ a.status.value ++
        ". Cannot change status.")) := by
  unfold approve_advance_endpoint
  rw [hfind]
  simp [hstatus]

/-- Witness for C6: re-deciding an already approved advance fails. -/
theorem claim_C6_witness :
    approve_advance_endpoint
      ⟨[⟨1, Role.staff, 100, 0, some 0, some 0, some 0, none⟩],
       [], [⟨10, 1, 50, AdvanceStatus.approved, some 0, none⟩], [], []⟩
      10 ⟨true, none⟩ 5 =
      .error (.badRequest "Advance is already approved. Cannot change status.") :=
  claim_C6_terminal_advance_cannot_be_redecided _ 10 ⟨true, none⟩ 5
    ⟨10, 1, 50, AdvanceStatus.approved, some 0, none⟩ rfl (by decide)

/-- Helper for the deny-path frame property: replacing, in an advance
list whose entries carrying the id of `a` are exactly `a`, that advance
by a record `a'` with the same id, where neither `a` nor `a'` is
approved, leaves the approved-advances sum unchanged. -/
theorem approvedSum_replace_nonApproved (eid : ℤ) (a a' : Advance)
    (hid : a'.id = a.id)
    (ha : a.status ≠ AdvanceStatus.approved)
    (ha' : a'.status ≠ AdvanceStatus.approved) :
    ∀ l : List Advance, (∀ x ∈ l, x.id = a.id → x = a) →
      (((l.map (fun x => if decide (x.id = a'.id) then a' else x)).filter
          (fun x => decide (x.employee_id = eid ∧ x.status = AdvanceStatus.approved))).map
        Advance.amount_for_advance).sum =
      ((l.filter
          (fun x => decide (x.employee_id = eid ∧ x.status = AdvanceStatus.approved))).map
        Advance.amount_for_advance).sum := by
  intro l
  induction l with
  | nil => intro _; rfl
  | cons x xs ih =>
    intro h
    have hxs := ih (fun y hy => h y (List.mem_cons_of_mem _ hy))
    by_cases hx : x.id = a'.id
    · have hxa : x = a := h x (List.mem_cons_self x xs) (by rw [← hid, hx])
      rw [List.map_cons,
        show (if decide (x.id = a'.id) = true then a' else x) = a' by simp [hx],
        List.filter_cons, List.filter_cons,
        show decide (a'.employee_id = eid ∧ a'.status = AdvanceStatus.approved) = false
          by simp [ha'],
        show decide (x.employee_id = eid ∧ x.status = AdvanceStatus.approved) = false
          by simp [hxa, ha]]
      simpa using hxs
    · rw [List.map_cons,
        show (if decide (x.id = a'.id) = true then a' else x) = x by simp [hx],
        List.filter_cons, List.filter_cons]
      cases hpx : decide (x.employee_id = eid ∧ x.status = AdvanceStatus.approved) with
      | false => simpa using hxs
      | true => simpa using hxs

/-- C1: deciding a pending advance with approved = true when the
recomputed `current_used + amount_for_advance` exceeds the employee's
base salary results in status denied (never approved), with the
check-1 auto-reject marker appended to the admin's notes in
`approval_notes`. -/
theorem claim_C1_overdraft_approval_auto_denied (db : DB) (advance_id : ℤ)
    (notes : Option String) (now : ℤ) (a : Advance) (e : Employee)
    (hfind : findAdvance db advance_id = some a)
    (hpending : a.status = AdvanceStatus.pending)
    (hemp : findEmployee db a.employee_id = some e)
    (hover : billsSum db a.employee_id + approvedAdvancesSum db a.employee_id +
      a.amount_for_advance > e.salary) :
    ∃ adv : Advance,
      approve_advance_endpoint db advance_id ⟨true, notes⟩ now =
        .ok (setAdvance db adv, adv) ∧
      adv.status = AdvanceStatus.denied ∧
      adv.status ≠ AdvanceStatus.approved ∧
      adv.approved_at = some now ∧
      adv.approval_notes = some (appendAutoRejectNote notes
        (autoRejectMsgExceedsBase
          (billsSum db a.employee_id + approvedAdvancesSum db a.employee_id +
            a.amount_for_advance)
          e.salary
          (e.salary - (billsSum db a.employee_id + approvedAdvancesSum db a.employee_id +
            a.amount_for_advance)))) := by
  refine ⟨{ a with
      status := AdvanceStatus.denied
      approved_at := some now
      approval_notes := some (appendAutoRejectNote notes
        (autoRejectMsgExceedsBase
          (billsSum db a.employee_id + approvedAdvancesSum db a.employee_id +
            a.amount_for_advance)
          e.salary
          (e.salary - (billsSum db a.employee_id + approvedAdvancesSum db a.employee_id +
            a.amount_for_advance)))) },
    ?_, rfl, by simp, rfl, rfl⟩
  simp only [approve_advance_endpoint, hfind, hemp]
  rw [if_neg (show ¬a.status ≠ AdvanceStatus.pending by rw [hpending]; decide)]
  simp only [eq_self_iff_true, if_true]
  rw [if_pos hover]

/-- Witness for C1: employee with base salary 100 and empty ledger; a
pending advance of 150 is decided with approved = true and is
auto-denied with the exceeds-base marker. -/
theorem claim_C1_witness :
    ∃ adv : Advance,
      approve_advance_endpoint
          ⟨[⟨1, Role.staff, 100, 0, some 0, some 0, some 0, none⟩], [],
           [⟨10, 1, 150, AdvanceStatus.pending, none, none⟩], [], []⟩
          10 ⟨true, none⟩ 0 =
        .ok (setAdvance
          ⟨[⟨1, Role.staff, 100, 0, some 0, some 0, some 0, none⟩], [],
           [⟨10, 1, 150, AdvanceStatus.pending, none, none⟩], [], []⟩ adv, adv) ∧
      adv.status = AdvanceStatus.denied ∧
      adv.approval_notes = some (appendAutoRejectNote none
        (autoRejectMsgExceedsBase 150 100 (-50))) := by
  obtain ⟨adv, h1, h2, _, _, h5⟩ :=
    claim_C1_overdraft_approval_auto_denied
      ⟨[⟨1, Role.staff, 100, 0, some 0, some 0, some 0, none⟩], [],
       [⟨10, 1, 150, AdvanceStatus.pending, none, none⟩], [], []⟩
      10 none 0 ⟨10, 1, 150, AdvanceStatus.pending, none, none⟩
      ⟨1, Role.staff, 100, 0, some 0, some 0, some 0, none⟩
      rfl rfl rfl
      (by simp [billsSum, approvedAdvancesSum, List.filter_cons, List.filter_nil]; norm_num)
  refine ⟨adv, h1, h2, ?_⟩
  rw [h5]
  simp [billsSum, approvedAdvancesSum, List.filter_cons, List.filter_nil]
  norm_num

/-- C9: deciding a pending advance with approved = false sets status
denied, stamps `approved_at`, stores the supplied notes verbatim, and
changes no employee field; in particular the employees table and the
recomputed used salary (bills plus approved advances) are unchanged. -/
theorem claim_C9_deny_changes_no_ledger_state (db : DB) (advance_id : ℤ)
    (notes : Option String) (now : ℤ) (a : Advance) (e : Employee)
    (hfind : findAdvance db advance_id = some a)
    (hpending : a.status = AdvanceStatus.pending)
    (hemp : findEmployee db a.employee_id = some e)
    (huniq : ∀ x ∈ db.advances, x.id = a.id → x = a) :
    approve_advance_endpoint db advance_id ⟨false, notes⟩ now =
      .ok (setAdvance db { a with
          status := AdvanceStatus.denied
          approved_at := some now
          approval_notes := notes },
        { a with
          status := AdvanceStatus.denied
          approved_at := some now
          approval_notes := notes }) ∧
    (setAdvance db { a with
        status := AdvanceStatus.denied
        approved_at := some now
        approval_notes := notes }).employees = db.employees ∧
    calculate_used_salary_from_transactions
        (setAdvance db { a with
          status := AdvanceStatus.denied
          approved_at := some now
          approval_notes := notes }) a.employee_id =
      calculate_used_salary_from_transactions db a.employee_id := by
  refine ⟨?_, rfl, ?_⟩
  · simp only [approve_advance_endpoint, hfind, hemp]
    rw [if_neg (show ¬a.status ≠ AdvanceStatus.pending by rw [hpending]; decide)]
    rw [if_neg (show ¬((⟨false, notes⟩ : AdvanceApprovalRequest).approved = true) from
      fun h => nomatch h)]
  · unfold calculate_used_salary_from_transactions
    have hadv : approvedAdvancesSum (setAdvance db { a with
        status := AdvanceStatus.denied
        approved_at := some now
        approval_notes := notes }) a.employee_id =
        approvedAdvancesSum db a.employee_id := by
      unfold approvedAdvancesSum setAdvance
      exact approvedSum_replace_nonApproved a.employee_id a
        { a with
          status := AdvanceStatus.denied
          approved_at := some now
          approval_notes := notes }
        rfl (by rw [hpending]; exact fun h => nomatch h) (fun h => nomatch h)
        db.advances huniq
    dsimp only
    rw [hadv]
    rfl

/-- Witness for C9: denying a pending advance of 40 for an employee with
one bill of 400 and one approved advance of 300 leaves the employees
table and the recomputed used salary unchanged. -/
theorem claim_C9_witness :
    approve_advance_endpoint
        ⟨[⟨1, Role.staff, 1000, 0, some 0, some 0, some 700, none⟩],
         [⟨1, 1, 400⟩],
         [⟨10, 1, 300, AdvanceStatus.approved, none, none⟩,
          ⟨11, 1, 40, AdvanceStatus.pending, none, none⟩], [], []⟩
        11 ⟨false, some "no"⟩ 5 =
      .ok (setAdvance
          ⟨[⟨1, Role.staff, 1000, 0, some 0, some 0, some 700, none⟩],
           [⟨1, 1, 400⟩],
           [⟨10, 1, 300, AdvanceStatus.approved, none, none⟩,
            ⟨11, 1, 40, AdvanceStatus.pending, none, none⟩], [], []⟩
          ⟨11, 1, 40, AdvanceStatus.denied, some 5, some "no"⟩,
        ⟨11, 1, 40, AdvanceStatus.denied, some 5, some "no"⟩) ∧
    (setAdvance
        ⟨[⟨1, Role.staff, 1000, 0, some 0, some 0, some 700, none⟩],
         [⟨1, 1, 400⟩],
         [⟨10, 1, 300, AdvanceStatus.approved, none, none⟩,
          ⟨11, 1, 40, AdvanceStatus.pending, none, none⟩], [], []⟩
        ⟨11, 1, 40, AdvanceStatus.denied, some 5, some "no"⟩).employees =
      (⟨[⟨1, Role.staff, 1000, 0, some 0, some 0, some 700, none⟩],
        [⟨1, 1, 400⟩],
        [⟨10, 1, 300, AdvanceStatus.approved, none, none⟩,
         ⟨11, 1, 40, AdvanceStatus.pending, none, none⟩], [], []⟩ : DB).employees ∧
    calculate_used_salary_from_transactions
        (setAdvance
          ⟨[⟨1, Role.staff, 1000, 0, some 0, some 0, some 700, none⟩],
           [⟨1, 1, 400⟩],
           [⟨10, 1, 300, AdvanceStatus.approved, none, none⟩,
            ⟨11, 1, 40, AdvanceStatus.pending, none, none⟩], [], []⟩
          ⟨11, 1, 40, AdvanceStatus.denied, some 5, some "no"⟩) 1 =
      calculate_used_salary_from_transactions
        ⟨[⟨1, Role.staff, 1000, 0, some 0, some 0, some 700, none⟩],
         [⟨1, 1, 400⟩],
         [⟨10, 1, 300, AdvanceStatus.approved, none, none⟩,
          ⟨11, 1, 40, AdvanceStatus.pending, none, none⟩], [], []⟩ 1 :=
  claim_C9_deny_changes_no_ledger_state
    ⟨[⟨1, Role.staff, 1000, 0, some 0, some 0, some 700, none⟩],
     [⟨1, 1, 400⟩],
     [⟨10, 1, 300, AdvanceStatus.approved, none, none⟩,
      ⟨11, 1, 40, AdvanceStatus.pending, none, none⟩], [], []⟩
    11 (some "no") 5 ⟨11, 1, 40, AdvanceStatus.pending, none, none⟩
    ⟨1, Role.staff, 1000, 0, some 0, some 0, some 700, none⟩
    rfl rfl rfl (by decide)

/-- C4: recording a salary payment for an existing employee by an
existing admin succeeds; with the amount omitted the persisted payment's
`amount_paid` is `max 0 (base_salary - recomputed used_salary)`, and in
every successful recording (omitted or explicit amount) the employee's
stored `used_salary` is 0 afterward, regardless of the amount paid. -/
theorem claim_C4_payment_resets_used_salary (db : DB)
    (employee_id admin_id : ℤ) (payment_date : Option ℤ)
    (notes : Option String) (now : ℤ) (e adm : Employee)
    (he : findEmployee db employee_id = some e)
    (ha : findEmployee db admin_id = some adm)
    (hrole : adm.role = Role.admin) :
    (∃ db1 p1,
      record_salary_payment db employee_id admin_id none payment_date notes now =
        .ok (db1, p1) ∧
      p1.amount_paid =
        max 0 (e.salary - calculate_used_salary_from_transactions db employee_id) ∧
      ∀ x ∈ db1.employees, x.id = employee_id → x.used_salary = some 0) ∧
    (∀ amt : ℚ, ∃ db2 p2,
      record_salary_payment db employee_id admin_id (some amt) payment_date notes now =
        .ok (db2, p2) ∧
      p2.amount_paid = amt ∧
      ∀ x ∈ db2.employees, x.id = employee_id → x.used_salary = some 0) := by
  have hred : ∀ amt : Option ℚ,
      record_salary_payment db employee_id admin_id amt payment_date notes now =
        .ok ({ db with
            salary_payments := db.salary_payments ++
              [⟨employee_id, admin_id,
                amt.getD (max 0 (e.salary -
                  calculate_used_salary_from_transactions db employee_id)),
                payment_date.getD now, notes⟩]
            employees := db.employees.map (fun x =>
              if decide (x.id = employee_id) then
                { x with used_salary := some 0, updated_at := some now }
              else x) },
          ⟨employee_id, admin_id,
            amt.getD (max 0 (e.salary -
              calculate_used_salary_from_transactions db employee_id)),
            payment_date.getD now, notes⟩) := by
    intro amt
    simp only [record_salary_payment, he, ha]
    rw [if_neg (show ¬adm.role ≠ Role.admin by rw [hrole]; decide)]
  have hmem : ∀ x ∈ db.employees.map (fun y =>
      if decide (y.id = employee_id) then
        { y with used_salary := some 0, updated_at := some now }
      else y), x.id = employee_id → x.used_salary = some 0 := by
    intro x hx hxid
    obtain ⟨y, hy, rfl⟩ := List.mem_map.mp hx
    by_cases hyid : y.id = employee_id
    · simp [hyid]
    · simp [hyid] at hxid
  exact ⟨⟨_, _, hred none, rfl, hmem⟩, fun amt => ⟨_, _, hred (some amt), rfl, hmem⟩⟩

/-- Witness for C4: employee with salary 1000, one bill of 400 and one
approved advance of 300 (recomputed used salary 700); a payment with
omitted amount records 300 and resets the stored `used_salary` (which
had drifted to 700) to 0. -/
theorem claim_C4_witness :
    ∃ db1 p1,
      record_salary_payment
          ⟨[⟨1, Role.staff, 1000, 0, some 0, some 0, some 700, none⟩,
            ⟨2, Role.admin, 2000, 0, some 0, some 0, some 0, none⟩],
           [⟨1, 1, 400⟩],
           [⟨10, 1, 300, AdvanceStatus.approved, none, none⟩], [], []⟩
          1 2 none none none 9 =
        .ok (db1, p1) ∧
      p1.amount_paid = 300 ∧
      ∀ x ∈ db1.employees, x.id = 1 → x.used_salary = some 0 := by
  obtain ⟨db1, p1, h1, h2, h3⟩ :=
    (claim_C4_payment_resets_used_salary
      ⟨[⟨1, Role.staff, 1000, 0, some 0, some 0, some 700, none⟩,
        ⟨2, Role.admin, 2000, 0, some 0, some 0, some 0, none⟩],
       [⟨1, 1, 400⟩],
       [⟨10, 1, 300, AdvanceStatus.approved, none, none⟩], [], []⟩
      1 2 none none 9
      ⟨1, Role.staff, 1000, 0, some 0, some 0, some 700, none⟩
      ⟨2, Role.admin, 2000, 0, some 0, some 0, some 0, none⟩
      rfl rfl rfl).1
  refine ⟨db1, p1, h1, ?_, h3⟩
  rw [h2, show calculate_used_salary_from_transactions
      ⟨[⟨1, Role.staff, 1000, 0, some 0, some 0, some 700, none⟩,
        ⟨2, Role.admin, 2000, 0, some 0, some 0, some 0, none⟩],
       [⟨1, 1, 400⟩],
       [⟨10, 1, 300, AdvanceStatus.approved, none, none⟩], [], []⟩ 1 = 700 from by
    simp [calculate_used_salary_from_transactions, billsSum, approvedAdvancesSum,
      List.filter_cons, List.filter_nil]
    norm_num]
  rw [show ((1000 : ℚ) - 700) = 300 from by norm_num]
  exact max_eq_right (by norm_num)

/-- The rollover loop, characterized: folding `resetStep` over the
employee list appends the per-employee rollover results and adds the
carry-forward / reset-to-zero counts to the accumulator. -/
theorem foldl_resetStep_spec (l : List Employee) :
    ∀ (es : List Employee) (s : ResetStats),
      l.foldl resetStep (es, s) =
        (es ++ l.map rolloverEmployee,
         ⟨s.reset_count + (l.countP carriesForward + l.countP resetsToZero),
          s.carried_forward + l.countP carriesForward,
          s.reset_to_zero + l.countP resetsToZero⟩) := by
  induction l with
  | nil => intro es s; simp
  | cons x xs ih =>
    intro es s
    rw [List.foldl_cons]
    by_cases h1 : x.salary - x.used_salary.getD 0 < 0
    · rw [show resetStep (es, s) x = (es ++ [rolloverEmployee x],
          ⟨s.reset_count + 1, s.carried_forward + 1, s.reset_to_zero⟩) from by
        simp [resetStep, rolloverEmployee, h1]]
      rw [ih]
      simp only [List.countP_cons, List.append_assoc, List.singleton_append,
        Prod.mk.injEq, ResetStats.mk.injEq, carriesForward, resetsToZero, h1]
      refine ⟨rfl, ?_, ?_, ?_⟩ <;> simp [h1] <;> omega
    · by_cases h2 : x.used_salary.getD 0 > 0
      · rw [show resetStep (es, s) x = (es ++ [rolloverEmployee x],
            ⟨s.reset_count + 1, s.carried_forward, s.reset_to_zero + 1⟩) from by
          simp [resetStep, rolloverEmployee, h1, h2]]
        rw [ih]
        simp only [List.countP_cons, List.append_assoc, List.singleton_append,
          Prod.mk.injEq, ResetStats.mk.injEq, carriesForward, resetsToZero]
        refine ⟨rfl, ?_, ?_, ?_⟩ <;> simp [h1, h2] <;> omega
      · rw [show resetStep (es, s) x = (es ++ [rolloverEmployee x], s) from by
          simp [resetStep, rolloverEmployee, h1, h2]]
        rw [ih]
        simp only [List.countP_cons, List.append_assoc, List.singleton_append,
          Prod.mk.injEq, ResetStats.mk.injEq, carriesForward, resetsToZero]
        refine ⟨rfl, ?_, ?_, ?_⟩ <;> simp [h1, h2]

/-- C3 (amended): on a target date whose day-of-month is not 1 the
rollover returns all-zero counts and mutates nothing; on the 1st it maps
every employee through the rollover rule — carry the overdraft forward
when `salary - used < 0`, zero a positive `used_salary`, and leave every
other employee's fields unchanged except that a NULL `used_salary` is
normalized to 0 — counting exactly the first two groups. -/
theorem claim_C3_monthly_rollover (db : DB) (target_date : ℤ) :
    (dayOfMonth target_date ≠ 1 →
      reset_monthly_salary_for_new_month db target_date = (db, ⟨0, 0, 0⟩)) ∧
    (dayOfMonth target_date = 1 →
      ∃ employees' stats,
        reset_monthly_salary_for_new_month db target_date =
          ({ db with employees := employees' }, stats) ∧
        List.Forall₂ (fun e e' : Employee =>
          (e.salary - e.used_salary.getD 0 < 0 →
            e' = { e with used_salary := some (e.used_salary.getD 0 - e.salary) }) ∧
          (¬ e.salary - e.used_salary.getD 0 < 0 → e.used_salary.getD 0 > 0 →
            e' = { e with used_salary := some 0 }) ∧
          (¬ e.salary - e.used_salary.getD 0 < 0 → ¬ e.used_salary.getD 0 > 0 →
            e' = { e with used_salary := some (e.used_salary.getD 0) }))
          db.employees employees' ∧
        stats.carried_forward = db.employees.countP carriesForward ∧
        stats.reset_to_zero = db.employees.countP resetsToZero ∧
        stats.reset_count =
          db.employees.countP carriesForward + db.employees.countP resetsToZero) := by
  constructor
  · intro h
    unfold reset_monthly_salary_for_new_month
    rw [if_pos h]
  · intro h
    refine ⟨db.employees.map rolloverEmployee,
      ⟨db.employees.countP carriesForward + db.employees.countP resetsToZero,
       db.employees.countP carriesForward, db.employees.countP resetsToZero⟩,
      ?_, ?_, rfl, rfl, rfl⟩
    · unfold reset_monthly_salary_for_new_month
      rw [if_neg (by rw [h]; exact fun hh => hh rfl)]
      rw [foldl_resetStep_spec]
      simp
    · rw [List.forall₂_map_right_iff]
      refine List.forall₂_same.mpr fun x _ => ⟨?_, ?_, ?_⟩
      · intro hx1
        simp [rolloverEmployee, hx1]
      · intro hx1 hx2
        simp [rolloverEmployee, hx1, hx2]
      · intro hx1 hx2
        simp [rolloverEmployee, hx1, hx2]

/-- Counterexample for C3 as stated: on the 1st, an employee whose
stored `used_salary` is NULL falls in neither the carry-forward nor the
reset-to-zero group, yet the rollover mutates it (normalizing the NULL
to 0), so "leaves every other employee unchanged" fails. -/
theorem claim_C3_counterexample :
    dayOfMonth (daysOfCivil 2025 6 1) = 1 ∧
    ¬ (⟨1, Role.staff, 1000, 0, some 0, some 0, none, none⟩ : Employee).salary -
        (⟨1, Role.staff, 1000, 0, some 0, some 0, none, none⟩ :
          Employee).used_salary.getD 0 < 0 ∧
    ¬ (⟨1, Role.staff, 1000, 0, some 0, some 0, none, none⟩ :
        Employee).used_salary.getD 0 > 0 ∧
    (reset_monthly_salary_for_new_month
        ⟨[⟨1, Role.staff, 1000, 0, some 0, some 0, none, none⟩,
          ⟨2, Role.staff, 1000, 0, some 0, some 0, some 300, none⟩], [], [], [], []⟩
        (daysOfCivil 2025 6 1)).1.employees.head? ≠
      some ⟨1, Role.staff, 1000, 0, some 0, some 0, none, none⟩ := by
  have hday : dayOfMonth (daysOfCivil 2025 6 1) = 1 := by decide
  refine ⟨hday, by norm_num, by norm_num, ?_⟩
  unfold reset_monthly_salary_for_new_month
  rw [if_neg (by rw [hday]; exact fun hh => hh rfl)]
  rw [foldl_resetStep_spec]
  norm_num [rolloverEmployee]
  exact fun hh => nomatch hh

/-- Witness for C3: a non-1st date is a no-op with zero counts, and on
the 1st the spec's two scenarios (used 1200 with salary 1000 carried
forward; used 300 reset to zero) are counted as 1 each. -/
theorem claim_C3_witness :
    reset_monthly_salary_for_new_month
        ⟨[⟨1, Role.staff, 1000, 0, some 0, some 0, some 1200, none⟩,
          ⟨2, Role.staff, 1000, 0, some 0, some 0, some 300, none⟩], [], [], [], []⟩
        (daysOfCivil 2025 7 2) =
      (⟨[⟨1, Role.staff, 1000, 0, some 0, some 0, some 1200, none⟩,
         ⟨2, Role.staff, 1000, 0, some 0, some 0, some 300, none⟩], [], [], [], []⟩,
       ⟨0, 0, 0⟩) ∧
    ∃ employees' stats,
      reset_monthly_salary_for_new_month
          ⟨[⟨1, Role.staff, 1000, 0, some 0, some 0, some 1200, none⟩,
            ⟨2, Role.staff, 1000, 0, some 0, some 0, some 300, none⟩], [], [], [], []⟩
          (daysOfCivil 2025 7 1) =
        ({ (⟨[⟨1, Role.staff, 1000, 0, some 0, some 0, some 1200, none⟩,
             ⟨2, Role.staff, 1000, 0, some 0, some 0, some 300, none⟩],
            [], [], [], []⟩ : DB) with employees := employees' }, stats) ∧
      stats.carried_forward = 1 ∧ stats.reset_to_zero = 1 ∧ stats.reset_count = 2 := by
  constructor
  · exact (claim_C3_monthly_rollover _ _).1 (by decide)
  · obtain ⟨employees', stats, h1, _, h3, h4, h5⟩ :=
      (claim_C3_monthly_rollover
        ⟨[⟨1, Role.staff, 1000, 0, some 0, some 0, some 1200, none⟩,
          ⟨2, Role.staff, 1000, 0, some 0, some 0, some 300, none⟩], [], [], [], []⟩
        (daysOfCivil 2025 7 1)).2 (by decide)
    refine ⟨employees', stats, h1, ?_, ?_, ?_⟩
    · rw [h3]
      norm_num [List.countP_cons, carriesForward]
    · rw [h4]
      norm_num [List.countP_cons, resetsToZero]
    · rw [h5]
      norm_num [List.countP_cons, carriesForward, resetsToZero]

/-- Helper for C7: a call on an employee whose last-mutation date equals
the target date, with initialized counters, on a working day on or after
the employment start, returns false and leaves the employee unchanged. -/
theorem attendance_second_call (db : DB) (e1 : Employee) (d now2 : ℤ)
    (hstart : ¬ d < e1.employment_start_date)
    (hoff : is_today_off_day db e1.id d = false)
    (hup : e1.updated_at = some d)
    (dm tot : ℤ)
    (hdm : e1.days_worked_this_month = some dm)
    (htot : e1.total_days_worked = some tot) :
    update_employee_attendance_for_date db e1 d now2 = (e1, false) := by
  obtain ⟨eid, erole, esal, estart, edm, etot, eused, eupd⟩ := e1
  simp only at hstart hoff hup hdm htot
  subst hup hdm htot
  unfold update_employee_attendance_for_date
  rw [if_neg hstart, if_neg (by simp [hoff])]
  simp

/-- C7 (amended): applying daily attendance twice for the same employee
and date is idempotent provided the clock date at the first application
equals the applied date (as in the daily scheduled run): the second
call, at any later clock date, returns false and leaves the counters
exactly as after the first call. -/
theorem claim_C7_attendance_idempotent_same_clock_date (db : DB)
    (e : Employee) (d now2 : ℤ) :
    update_employee_attendance_for_date db
        (update_employee_attendance_for_date db e d d).1 d now2 =
      ((update_employee_attendance_for_date db e d d).1, false) := by
  by_cases h1 : d < e.employment_start_date
  · have hfst : update_employee_attendance_for_date db e d d = (e, false) := by
      unfold update_employee_attendance_for_date
      rw [if_pos h1]
    rw [hfst]
    unfold update_employee_attendance_for_date
    rw [if_pos h1]
  · by_cases h2 : is_today_off_day db e.id d = true
    · have hfst : update_employee_attendance_for_date db e d d = (e, false) := by
        unfold update_employee_attendance_for_date
        rw [if_neg h1, if_pos h2]
      rw [hfst]
      unfold update_employee_attendance_for_date
      rw [if_neg h1, if_pos h2]
    · have hoff : is_today_off_day db e.id d = false := by
        cases hb : is_today_off_day db e.id d
        · rfl
        · exact absurd hb h2
      by_cases h3 : e.updated_at = some d
      · have hfst : update_employee_attendance_for_date db e d d =
            ({ e with
                days_worked_this_month := some (e.days_worked_this_month.getD 0)
                total_days_worked := some (e.total_days_worked.getD 0) }, false) := by
          unfold update_employee_attendance_for_date
          rw [if_neg h1, if_neg (by simp [hoff])]
          simp [h3]
        rw [hfst]
        exact attendance_second_call db _ d now2 h1 hoff h3 _ _ rfl rfl
      · have hfst : update_employee_attendance_for_date db e d d =
            ({ e with
                days_worked_this_month := some
                  ((match e.updated_at with
                    | some lu =>
                      if monthOf lu ≠ monthOf d ∨ yearOf lu ≠ yearOf d then 0
                      else e.days_worked_this_month.getD 0
                    | none =>
                      if dayOfMonth d = 1 then 0
                      else e.days_worked_this_month.getD 0) + 1)
                total_days_worked := some (e.total_days_worked.getD 0 + 1)
                updated_at := some d }, true) := by
          unfold update_employee_attendance_for_date
          rw [if_neg h1, if_neg (by simp [hoff]), if_neg h3]
        rw [hfst]
        exact attendance_second_call db _ d now2 h1 hoff rfl _ _ rfl rfl

/-- Counterexample for C7 as stated: with a clock date (June 11) that
differs from the applied date (June 10), the first application stamps
the clock date into `updated_at`, so the second application for the same
date does not detect the rerun and increments again, returning true. -/
theorem claim_C7_counterexample :
    (update_employee_attendance_for_date ⟨[], [], [], [], []⟩
        (update_employee_attendance_for_date ⟨[], [], [], [], []⟩
          ⟨1, Role.staff, 1000, 0, none, none, some 0, none⟩
          (daysOfCivil 2025 6 10) (daysOfCivil 2025 6 11)).1
        (daysOfCivil 2025 6 10) (daysOfCivil 2025 6 11)).2 = true ∧
    (update_employee_attendance_for_date ⟨[], [], [], [], []⟩
        (update_employee_attendance_for_date ⟨[], [], [], [], []⟩
          ⟨1, Role.staff, 1000, 0, none, none, some 0, none⟩
          (daysOfCivil 2025 6 10) (daysOfCivil 2025 6 11)).1
        (daysOfCivil 2025 6 10) (daysOfCivil 2025 6 11)).1.total_days_worked = some 2 := by
  constructor
  · decide
  · decide

end SalarySystem
